import Mathlib

/-!
Shallow embedding of the InvoTrack document finalization pipeline
(`src/services/backend.ts`, `src/app/edit-invoice/hooks/useDialogFlow.ts`).

Monetary amounts are modelled as rationals, Firestore timestamps as natural
numbers, and JavaScript partial objects as structures whose optional fields
are `Option`-valued.  JavaScript string truthiness (`!!s`, `s && e`) is
modelled by `strTruthy`.
-/

namespace InvoTrack

/-- Monetary amounts (`number` in the source) as exact rationals. -/
abbrev Money := ℚ

/-- JS truthiness of an optional string: `undefined`/`null` and `""` are falsy. -/
def strTruthy : Option String → Bool
  | none => false
  | some s => s ≠ ""

/-- `x || 0` on an optional number (`Number(undefined) || 0` gives `0`). -/
def numOr0 (o : Option Money) : Money := o.getD 0

/-- `Math.abs` on an exact rational. -/
def ratAbs (q : Money) : Money := if q < 0 then -q else q

/-- `s || null` on an optional string: a falsy string collapses to `null`. -/
def strOrNull (o : Option String) : Option String :=
  if strTruthy o then o else none

/-- `PosIntegrationRef` from `services/types.ts`: the stored link between an
internal entity and its counterpart in an external POS system. -/
structure PosRef where
  systemId : String
  externalId : String
  lastSync : Option String := none
deriving Repr, DecidableEq

/-- `Product` / `Partial<Product>` / `EditableProduct` from `services/types.ts`.
All fields are `Option`-valued so that the same structure models the partial
objects (`Partial<Product>`, spread results) that flow through the services;
`none` stands for an absent key. -/
structure Product where
  id : Option String := none
  userId : Option String := none
  name : Option String := none
  catalogNumber : Option String := none
  barcode : Option String := none
  unitPrice : Option Money := none
  salePrice : Option Money := none
  quantity : Option Money := none
  lineTotal : Option Money := none
  minStockLevel : Option Money := none
  isActive : Option Bool := none
  lastUpdated : Option Nat := none
  posRefs : Option (List (String × PosRef)) := none
  _originalId : Option String := none
deriving Repr, DecidableEq

/-- `ProductPriceDiscrepancy` from `services/types.ts`: the candidate (with the
matched internal id spliced in) together with both unit prices. -/
structure ProductPriceDiscrepancy where
  base : Product
  existingUnitPrice : Money
  newUnitPrice : Money
deriving Repr, DecidableEq

/-- `PriceCheckResult` from `services/types.ts`. -/
structure PriceCheckResult where
  productsToSaveDirectly : List Product
  priceDiscrepancies : List ProductPriceDiscrepancy
deriving Repr, DecidableEq

/-- The two identity fields used by the chunked inventory queries in
`checkProductPricesBeforeSaveService`. -/
inductive IdentField
  | catalogNumber
  | barcode
deriving Repr, DecidableEq

/-- Value of an identity field on a product document. -/
def fieldVal : IdentField → Product → Option String
  | .catalogNumber, p => p.catalogNumber
  | .barcode, p => p.barcode

/-- A Firestore `where(field, "in", chunk)` predicate: the document's field is
present and its value is one of the chunk's values. -/
def inChunk (f : IdentField) (chunk : List String) (p : Product) : Bool :=
  match fieldVal f p with
  | some v => chunk.contains v
  | none => false

/-- The association map `existingProductsMap` (a JS `Map`), as a list of
key/product pairs; `Map.get` is the first binding for the key. -/
abbrev ProductMap := List (String × Product)

/-- `Map.set` for a key that is known to be absent (appends the binding). -/
def mapSet (m : ProductMap) (k : String) (v : Product) : ProductMap :=
  m ++ [(k, v)]

/-- `addProductToMap` from `checkProductPricesBeforeSaveService`
(`backend.ts` lines 188-198): registers a fetched inventory product under its
truthy `catalogNumber` and its truthy `barcode`, first binding wins. -/
def addProductToMap (m : ProductMap) (product : Product) : ProductMap :=
  let m :=
    if strTruthy product.catalogNumber
        && ((m.lookup (product.catalogNumber.getD "")).isNone) then
      mapSet m (product.catalogNumber.getD "") product
    else m
  if strTruthy product.barcode
      && ((m.lookup (product.barcode.getD "")).isNone) then
    mapSet m (product.barcode.getD "") product
  else m

/-- Consecutive chunks of at most 10 values, exactly as produced by the loop
`for (let i = 0; i < values.length; i += 10) values.slice(i, i + 10)` in
`fetchInChunks` (`backend.ts` lines 204-211). -/
def chunksOf10 : List String → List (List String)
  | [] => []
  | v :: vs => ((v :: vs).take 10) :: chunksOf10 ((v :: vs).drop 10)
termination_by l => l.length
decreasing_by simp; omega

/-- `fetchInChunks` (`backend.ts` lines 200-212): for each chunk, run the
`where(field, "in", chunk)` query against the user's inventory and feed every
returned document to `addProductToMap`. -/
def fetchInChunks (inventory : List Product) (f : IdentField)
    (values : List String) (m : ProductMap) : ProductMap :=
  (chunksOf10 values).foldl
    (fun m chunk => (inventory.filter (inChunk f chunk)).foldl addProductToMap m)
    m

/-- The list of `in`-queries issued by `checkProductPricesBeforeSaveService`
for a given candidate list (`backend.ts` lines 204-219): catalog-number chunks
first, then barcode chunks; no query when the respective value list is empty. -/
def issuedQueries (catalogNumbers barcodes : List String) :
    List (IdentField × List String) :=
  (if catalogNumbers.length > 0 then
    (chunksOf10 catalogNumbers).map (fun c => (IdentField.catalogNumber, c))
  else []) ++
  (if barcodes.length > 0 then
    (chunksOf10 barcodes).map (fun c => (IdentField.barcode, c))
  else [])

/-- The truthy catalog numbers of the candidates (`backend.ts` lines 174-176). -/
def collectCatalogNumbers (productsToCheck : List Product) : List String :=
  productsToCheck.filterMap
    (fun p => if strTruthy p.catalogNumber then p.catalogNumber else none)

/-- The truthy barcodes of the candidates (`backend.ts` lines 177-179). -/
def collectBarcodes (productsToCheck : List Product) : List String :=
  productsToCheck.filterMap
    (fun p => if strTruthy p.barcode then p.barcode else none)

/-- The map of fetched inventory products as built by
`checkProductPricesBeforeSaveService` before its classification loop
(`backend.ts` lines 185-219). -/
def builtMap (productsToCheck inventory : List Product) : ProductMap :=
  let catalogNumbers := collectCatalogNumbers productsToCheck
  let barcodes := collectBarcodes productsToCheck
  let m : ProductMap := []
  let m :=
    if catalogNumbers.length > 0 then
      fetchInChunks inventory .catalogNumber catalogNumbers m
    else m
  if barcodes.length > 0 then fetchInChunks inventory .barcode barcodes m else m

/-- The lookup
`(product.catalogNumber && map.get(product.catalogNumber)) ||
 (product.barcode && map.get(product.barcode))`
(`backend.ts` lines 222-225). -/
def lookupExisting (m : ProductMap) (product : Product) : Option Product :=
  match (if strTruthy product.catalogNumber then
            m.lookup (product.catalogNumber.getD "")
          else none) with
  | some e => some e
  | none =>
      if strTruthy product.barcode then m.lookup (product.barcode.getD "")
      else none

/-- One iteration of the classification loop (`backend.ts` lines 221-247):
either the candidate goes to `productsToSaveDirectly` (left) or it becomes a
price discrepancy (right). -/
def classifyProduct (m : ProductMap) (product : Product) :
    Product ⊕ ProductPriceDiscrepancy :=
  match lookupExisting m product with
  | none => Sum.inl product
  | some existingProduct =>
      let existingUnitPrice := numOr0 existingProduct.unitPrice
      let newUnitPrice := numOr0 product.unitPrice
      if ratAbs (existingUnitPrice - newUnitPrice) > (1 / 1000 : Money) then
        Sum.inr ⟨{ product with id := existingProduct.id },
                  existingUnitPrice, newUnitPrice⟩
      else
        Sum.inl { product with id := existingProduct.id }

/-- The two push-lists of the classification loop, in input order. -/
def partitionClassified (m : ProductMap) :
    List Product → List Product × List ProductPriceDiscrepancy
  | [] => ([], [])
  | p :: ps =>
      let rest := partitionClassified m ps
      match classifyProduct m p with
      | Sum.inl q => (q :: rest.1, rest.2)
      | Sum.inr d => (rest.1, d :: rest.2)

/-- `checkProductPricesBeforeSaveService` (`backend.ts` lines 166-250), with
the user's inventory passed in place of the Firestore subcollection.  Early
return when the candidates carry no truthy catalog number and no truthy
barcode; otherwise fetch matching inventory in chunks and classify every
candidate against the resulting map. -/
def checkProductPricesBeforeSaveService (productsToCheck inventory : List Product) :
    PriceCheckResult :=
  let catalogNumbers := collectCatalogNumbers productsToCheck
  let barcodes := collectBarcodes productsToCheck
  if catalogNumbers.length = 0 ∧ barcodes.length = 0 then
    { productsToSaveDirectly := productsToCheck, priceDiscrepancies := [] }
  else
    let m := builtMap productsToCheck inventory
    let r := partitionClassified m productsToCheck
    { productsToSaveDirectly := r.1, priceDiscrepancies := r.2 }

/-! ### Resolution flow (`useDialogFlow.ts`) -/

/-- The document types of `FinalizeInvoiceData` and `useDialogFlow`'s
`docType` prop: `"deliveryNote" | "invoice" | "invoiceReceipt" | "receipt"`. -/
inductive DocType
  | deliveryNote
  | invoice
  | invoiceReceipt
  | receipt
deriving Repr, DecidableEq

/-- `DialogFlowStep` from `services/types.ts`. -/
inductive DialogFlowStep
  | idle
  | processing
  | supplier_payment_details
  | new_product_details
  | prompt_link_invoice
  | prompt_link_delivery_notes
  | ready_to_save
  | error_loading
deriving Repr, DecidableEq

/-- `advanceToNextStep` from `useDialogFlow.ts` (lines 289-316): the step the
flow moves to from `currentStep`, given the (possibly null) document type. -/
def advanceToNextStep (docType : Option DocType)
    (currentStep : DialogFlowStep) : DialogFlowStep :=
  match currentStep with
  | .supplier_payment_details => .new_product_details
  | .new_product_details =>
      match docType with
      | some .invoice => .prompt_link_delivery_notes
      | some .invoiceReceipt => .prompt_link_delivery_notes
      | some .receipt => .prompt_link_invoice
      | _ => .ready_to_save
  | _ => .ready_to_save

/-- The flow state touched by `handleLinkInvoice` (`useDialogFlow.ts` lines
257-269). -/
structure DialogFlowState where
  currentDialogStep : DialogFlowStep := .idle
  isLinkInvoiceSheetOpen : Bool := false
  isDialogFlowActive : Bool := true
  finalizedLinkedInvoiceId : Option String := none
deriving Repr, DecidableEq

/-- `handleLinkInvoice` from `useDialogFlow.ts` (lines 257-269): records the
selected invoice id in the flow state, closes the sheet and moves the flow to
`ready_to_save`. -/
def handleLinkInvoice (st : DialogFlowState) (linkedInvoiceId : String) :
    DialogFlowState :=
  { st with
    finalizedLinkedInvoiceId := some linkedInvoiceId,
    isLinkInvoiceSheetOpen := false,
    currentDialogStep := .ready_to_save,
    isDialogFlowActive := false }

/-! ### Data model of the per-user Firestore store (`services/types.ts`) -/

/-- `SyncStatus`: the nested `syncStatus` object written via dotted-path
`updateDoc` calls in the POS relay. -/
structure SyncStatus where
  status : Option String := none
  error : Option String := none
  lastSync : Option String := none
deriving Repr, DecidableEq

/-- `Supplier` from `services/types.ts` (the fields the finalization pipeline
touches); `isSyncedToPos`/`syncStatus` mirror the ad-hoc fields the POS error
handler writes onto supplier documents. -/
structure Supplier where
  id : Option String := none
  userId : Option String := none
  name : Option String := none
  osekMorshe : Option String := none
  paymentTerms : Option String := none
  totalSpent : Option Money := none
  invoiceCount : Option Nat := none
  createdAt : Option Nat := none
  lastActivityDate : Option Nat := none
  posRefs : Option (List (String × PosRef)) := none
  isSyncedToPos : Option Bool := none
  syncStatus : SyncStatus := {}
deriving Repr, DecidableEq

/-- `Invoice` from `services/types.ts`, restricted to exactly the fields the
`invoiceData` literal of `finalizeSaveProductsService` writes (`backend.ts`
lines 426-466).  Firestore timestamps are abstracted to `Nat` instants, so
`convertToTimestampIfValid` becomes the identity on already-valid instants. -/
structure Invoice where
  fileType : String := "unknown"
  fileSize : Nat := 0
  imageUri : Option String := none
  compressedImageUri : Option String := none
  uploadTime : Option Nat := none
  id : String := ""
  userId : String := ""
  originalFileName : String := ""
  generatedFileName : String := ""
  status : String := "pending"
  documentType : DocType := .invoice
  supplierName : String := ""
  supplierId : String := ""
  invoiceNumber : Option String := none
  date : Option Nat := none
  totalAmount : Money := 0
  paymentMethod : Option String := none
  dueDate : Option Nat := none
  paymentStatus : String := "unpaid"
  products : List Product := []
  isArchived : Bool := false
  syncedPos : Option PosRef := none
  originalImagePreviewUri : Option String := none
  compressedImageForFinalRecordUri : Option String := none
  linkedDeliveryNoteIds : List String := []
  linkedInvoiceId : Option String := none
  paymentTerms : Option String := none
  osekMorshe : Option String := none
  rawScanResultJson : Option String := none
  errorMessage : Option String := none
  paymentReceiptImageUri : Option String := none
  taxAmount : Option Money := none
  subtotalAmount : Option Money := none
deriving Repr, DecidableEq

/-- A stored document record: the `invoiceData` fields plus the sync fields
(`isSyncedToPos`, `syncStatus`, `posRefs`) that only the POS relay writes,
which a `set(..., {merge:true})` of `invoiceData` leaves untouched. -/
structure StoredDoc where
  record : Invoice
  isSyncedToPos : Option Bool := none
  syncStatus : SyncStatus := {}
  posRefs : Option (List (String × PosRef)) := none
deriving Repr, DecidableEq

/-- The per-user slice of the Firestore store: the `suppliers`,
`inventoryProducts` and `documents` subcollections, each keyed by document
id. -/
structure Store where
  suppliers : List (String × Supplier) := []
  inventory : List (String × Product) := []
  documents : List (String × StoredDoc) := []
deriving Repr, DecidableEq

/-- Set the value stored under a document id (replace if present, else
append); document ids are unique keys. -/
def setAssoc {α : Type} : List (String × α) → String → α → List (String × α)
  | [], k, v => [(k, v)]
  | (k', v') :: rest, k, v =>
      if k' = k then (k, v) :: rest else (k', v') :: setAssoc rest k v

/-- The pre-transaction `query(suppliers, where("name","==",name), limit(1))`
of `finalizeSaveProductsService` and the duplicate check of
`createSupplierService`: the first supplier document whose `name` equals the
given name. -/
def findSupplierByName (sups : List (String × Supplier)) (name : String) :
    Option (String × Supplier) :=
  sups.find? (fun kv => kv.2.name == some name)

/-- Lookup in a `posRefs` map (`posRefs?.[key]?`). -/
def posRefsLookup (refs : Option (List (String × PosRef))) (key : String) :
    Option PosRef :=
  (refs.getD []).lookup key

/-- Dotted-path update `posRefs.<key> = r` (creates the map if absent). -/
def posRefsSet (refs : Option (List (String × PosRef))) (key : String)
    (r : PosRef) : Option (List (String × PosRef)) :=
  some (setAssoc (refs.getD []) key r)

/-! ### The finalize transaction (`finalizeSaveProductsService`, critical
section, `backend.ts` lines 311-471) -/

/-- `FinalizeInvoiceData` (`backend.ts` lines 147-164). -/
structure FinalizeInvoiceData where
  products : List Product := []
  originalFileName : String := ""
  docType : DocType := .invoice
  userId : String := ""
  existingDocumentId : Option String := none
  invoiceNumber : Option String := none
  supplierName : Option String := none
  totalAmount : Option Money := none
  paymentDueDate : Option Nat := none
  invoiceDate : Option Nat := none
  paymentMethod : Option String := none
  originalImagePreviewUri : Option String := none
  compressedImageForFinalRecordUri : Option String := none
  rawScanResultJson : Option String := none
  paymentTerms : Option String := none
  osekMorshe : Option String := none
deriving Repr, DecidableEq

/-- Environment of one finalize transaction: the server clock, the client-side
id generator backing `doc(collection)` (a counter in the model), and
fault-injection flags that make the store refuse the corresponding staged
write at commit time (Firestore transactions surface write failures when the
transaction commits; spec §8's atomicity property forces the document write
to fail). -/
structure TxEnv where
  now : Nat := 0
  genId : Nat → String := fun n => "gen-" ++ toString n
  failSupplierWrite : Bool := false
  failProductWrite : Bool := false
  failDocWrite : Bool := false

/-- A staged transaction write, mirroring the `transaction.update` /
`transaction.set` calls of the finalize transaction in order. -/
inductive TxWrite
  | supplierUpdate (id : String) (totalSpent : Money) (invoiceCount : Nat)
      (lastActivityDate : Nat)
  | supplierSet (id : String) (sup : Supplier)
  | productUpdate (id : String) (payload : Product)
  | productSet (id : String) (payload : Product)
  | documentSetMerge (id : String) (payload : Invoice)
deriving Repr, DecidableEq

/-- Firestore `update` merge on a product document: fields present in the
payload overwrite the stored ones, absent fields are preserved (the model
conflates an explicit `null` with an absent key). -/
def mergeProduct (stored payload : Product) : Product :=
  { id := payload.id <|> stored.id
    userId := payload.userId <|> stored.userId
    name := payload.name <|> stored.name
    catalogNumber := payload.catalogNumber <|> stored.catalogNumber
    barcode := payload.barcode <|> stored.barcode
    unitPrice := payload.unitPrice <|> stored.unitPrice
    salePrice := payload.salePrice <|> stored.salePrice
    quantity := payload.quantity <|> stored.quantity
    lineTotal := payload.lineTotal <|> stored.lineTotal
    minStockLevel := payload.minStockLevel <|> stored.minStockLevel
    isActive := payload.isActive <|> stored.isActive
    lastUpdated := payload.lastUpdated <|> stored.lastUpdated
    posRefs := payload.posRefs <|> stored.posRefs
    _originalId := payload._originalId <|> stored._originalId }

/-- Apply one staged write at commit time.  `none` is a commit failure: an
injected fault, or an `update` whose target document does not exist (which
Firestore rejects).  A `set(..., {merge:true})` of the full `invoiceData`
object overwrites every `Invoice` field but leaves the sync-only fields of an
existing document untouched. -/
def applyWrite (env : TxEnv) (s : Store) : TxWrite → Option Store
  | .supplierUpdate id totalSpent invoiceCount lastActivityDate =>
      if env.failSupplierWrite then none
      else match s.suppliers.lookup id with
        | none => none
        | some sup =>
            some { s with suppliers :=
                            setAssoc s.suppliers id
                              { sup with totalSpent := some totalSpent,
                                         invoiceCount := some invoiceCount,
                                         lastActivityDate := some lastActivityDate } }
  | .supplierSet id sup =>
      if env.failSupplierWrite then none
      else some { s with suppliers := setAssoc s.suppliers id sup }
  | .productUpdate id payload =>
      if env.failProductWrite then none
      else match s.inventory.lookup id with
        | none => none
        | some p =>
            some { s with inventory := setAssoc s.inventory id (mergeProduct p payload) }
  | .productSet id payload =>
      if env.failProductWrite then none
      else some { s with inventory := setAssoc s.inventory id payload }
  | .documentSetMerge id payload =>
      if env.failDocWrite then none
      else match s.documents.lookup id with
        | some d =>
            some { s with documents := setAssoc s.documents id { d with record := payload } }
        | none =>
            some { s with documents := setAssoc s.documents id { record := payload } }

/-- Apply the staged writes of a committing transaction in order; the first
failing write aborts the whole commit. -/
def applyWrites (env : TxEnv) (s : Store) : List TxWrite → Option Store
  | [] => some s
  | w :: ws =>
      match applyWrite env s w with
      | none => none
      | some s1 => applyWrites env s1 ws

/-- The per-line-item step of the finalize transaction (`backend.ts` lines
383-416).  Returns the staged write, the entry pushed onto
`savedOrUpdatedProducts`, and the updated fresh-id counter.  A line item is an
update of the existing record `_originalId` exactly when `_originalId` is
truthy and does not start with `"prod-temp-"`; otherwise a new record is
created under a freshly generated id.  Both payloads are stamped
`isActive: true` and `lastUpdated: serverTimestamp()`; the snapshot entry of a
new record drops `lastUpdated`. -/
def processProduct (env : TxEnv) (userId : String) (n : Nat)
    (product : Product) : TxWrite × Product × Nat :=
  let productData := { product with _originalId := none }
  if strTruthy product._originalId
      && !((product._originalId.getD "").startsWith "prod-temp-") then
    let oid := product._originalId.getD ""
    (.productUpdate oid
        { productData with lastUpdated := some env.now, isActive := some true },
     { productData with id := some oid, userId := some userId },
     n)
  else
    let fid := env.genId n
    let newProductData :=
      { productData with id := some fid, userId := some userId,
                         lastUpdated := some env.now, isActive := some true }
    (.productSet fid newProductData,
     { newProductData with lastUpdated := none },
     n + 1)

/-- The product loop of the finalize transaction, threading the fresh-id
counter. -/
def processProducts (env : TxEnv) (userId : String) :
    List Product → Nat → List TxWrite × List Product × Nat
  | [], n => ([], [], n)
  | p :: ps, n =>
      let step := processProduct env userId n p
      let rest := processProducts env userId ps step.2.2
      (step.1 :: rest.1, step.2.1 :: rest.2.1, rest.2.2)

/-- The `invoiceData` literal of the finalize transaction (`backend.ts` lines
426-466). -/
def buildInvoiceData (data : FinalizeInvoiceData) (env : TxEnv)
    (pendingDocData : Option Invoice) (finalInvoiceId finalSupplierId : String)
    (savedOrUpdatedProducts : List Product) : Invoice :=
  { fileType :=
      match pendingDocData with
      | some d => if d.fileType = "" then "unknown" else d.fileType
      | none => "unknown"
    fileSize := (pendingDocData.map (·.fileSize)).getD 0
    imageUri := pendingDocData.bind (fun d => strOrNull d.imageUri)
    compressedImageUri := pendingDocData.bind (fun d => strOrNull d.compressedImageUri)
    uploadTime := (pendingDocData.bind (·.uploadTime)) <|> some env.now
    id := finalInvoiceId
    userId := data.userId
    originalFileName := data.originalFileName
    generatedFileName :=
      data.supplierName.getD "" ++ "_" ++
        (if strTruthy data.invoiceNumber then data.invoiceNumber.getD "" else "N_A")
    status := "completed"
    documentType := data.docType
    supplierName := data.supplierName.getD ""
    supplierId := finalSupplierId
    invoiceNumber := strOrNull data.invoiceNumber
    date := data.invoiceDate
    totalAmount := (data.totalAmount).getD 0
    paymentMethod := strOrNull data.paymentMethod
    dueDate := data.paymentDueDate
    paymentStatus :=
      if data.docType = .receipt ∨ data.docType = .invoiceReceipt then "paid"
      else "unpaid"
    products := savedOrUpdatedProducts
    isArchived := false
    syncedPos := none
    originalImagePreviewUri :=
      pendingDocData.bind (fun d => strOrNull d.originalImagePreviewUri)
    compressedImageForFinalRecordUri :=
      pendingDocData.bind (fun d => strOrNull d.compressedImageForFinalRecordUri)
    linkedDeliveryNoteIds := []
    linkedInvoiceId := none
    paymentTerms := strOrNull data.paymentTerms
    osekMorshe := strOrNull data.osekMorshe
    rawScanResultJson := strOrNull data.rawScanResultJson
    errorMessage := none
    paymentReceiptImageUri := none
    taxAmount := none
    subtotalAmount := none }

/-- Tail of the transaction body after supplier resolution: the product loop,
the choice of the final document reference, the `invoiceData` literal and the
closing `transaction.set(finalInvoiceRef, invoiceData, {merge:true})`. -/
def finalizeRest (data : FinalizeInvoiceData) (env : TxEnv)
    (pendingDocData : Option Invoice) (finalSupplierId : String)
    (ws : List TxWrite) (n : Nat) :
    Except String (List TxWrite × Invoice × List Product × String) :=
  let step := processProducts env data.userId data.products n
  let finalInvoiceId :=
    match data.existingDocumentId with
    | some did => did
    | none => env.genId step.2.2
  let invoiceData := buildInvoiceData data env pendingDocData finalInvoiceId
    finalSupplierId step.2.1
  .ok (ws ++ step.1 ++ [.documentSetMerge finalInvoiceId invoiceData],
       invoiceData, step.2.1, finalSupplierId)

/-- The `transaction.get` read of the pending/draft document at the start of
the finalize transaction (`backend.ts` lines 315-326). -/
def pendingDocOf (data : FinalizeInvoiceData) (s : Store) : Option Invoice :=
  match data.existingDocumentId with
  | some did => (s.documents.lookup did).map StoredDoc.record
  | none => none

/-- The body of `runTransaction` in `finalizeSaveProductsService`
(`backend.ts` lines 313-470).  Reads first: the pending document (via
`transaction.get`) and the supplier-by-name query (issued against the
pre-transaction snapshot `s0`), then the in-transaction re-read of the found
supplier, which throws if the supplier disappeared.  Then the staged writes:
supplier counter update or supplier creation, product upserts, document
write. -/
def finalizeTxBody (data : FinalizeInvoiceData) (env : TxEnv) (s0 s : Store) :
    Except String (List TxWrite × Invoice × List Product × String) :=
  let pendingDocData : Option Invoice := pendingDocOf data s
  match findSupplierByName s0.suppliers (data.supplierName.getD "") with
  | some (sid, _) =>
      match s.suppliers.lookup sid with
      | none =>
          .error "Supplier was deleted between the initial query and the transaction start."
      | some supplierData =>
          finalizeRest data env pendingDocData sid
            [.supplierUpdate sid
              (numOr0 supplierData.totalSpent + numOr0 data.totalAmount)
              ((supplierData.invoiceCount.getD 0) + 1) env.now]
            0
  | none =>
      let sid := env.genId 0
      finalizeRest data env pendingDocData sid
        [.supplierSet sid
          { id := some sid, userId := some data.userId,
            name := data.supplierName,
            totalSpent := some (numOr0 data.totalAmount),
            invoiceCount := some 1,
            createdAt := some env.now, lastActivityDate := some env.now,
            paymentTerms := strOrNull data.paymentTerms,
            osekMorshe := strOrNull data.osekMorshe,
            posRefs := some [] }]
        1

/-- The critical section of `finalizeSaveProductsService`: the precondition
checks (`backend.ts` lines 304-305) followed by the atomic transaction.  On
success it returns the committed store, the final invoice record, the product
snapshot list and the final supplier id; on any failure the store is
untouched. -/
def finalizeCommit (data : FinalizeInvoiceData) (env : TxEnv) (s0 s : Store) :
    Except String (Store × Invoice × List Product × String) :=
  if data.userId = "" then .error "User ID is missing."
  else if strTruthy data.supplierName then
    match finalizeTxBody data env s0 s with
    | .error e => .error e
    | .ok (ws, inv, saved, supId) =>
        match applyWrites env s ws with
        | none => .error "transaction commit failed"
        | some s1 => .ok (s1, inv, saved, supId)
  else .error "Supplier name is required."

/-! ### The POS synchronization relay (`backend.ts` lines 473-598) -/

/-- `PosConnectionConfig` from `pos-adapter.interface.ts` (credentials are
opaque to this pipeline). -/
structure PosConnectionConfig where
  systemId : Option String := none
deriving Repr, DecidableEq

/-- The slice of `UserSettings` the relay reads. -/
structure UserSettings where
  posConfig : Option PosConnectionConfig := none
deriving Repr, DecidableEq

/-- The result object of the POS server actions
(`upsertPosSupplierAction`, `upsertPosProductAction`, `createPosExpenseAction`). -/
structure PosActionResult where
  success : Bool := false
  externalId : Option String := none
  message : String := ""
deriving Repr, DecidableEq

/-- Environment of the relay: the settings read and the three POS adapter
actions, each either returning a result object or throwing (`Except.error`),
plus the wall clock used for `lastSync` stamps. -/
structure PosEnv where
  settings : Except String UserSettings := .ok {}
  supplierUpsert : Supplier → Except String PosActionResult := fun _ => .ok {}
  productUpsert : Product → Except String PosActionResult := fun _ => .ok {}
  expenseCreate : Invoice → Except String PosActionResult := fun _ => .ok {}
  nowIso : String := "now"

/-- `updateDoc` writing `posRefs.<key>` on a supplier document (no-op when the
document is missing; the relay only targets the supplier id it just
committed). -/
def updateSupplierPosRef (s : Store) (sid key : String) (r : PosRef) : Store :=
  match s.suppliers.lookup sid with
  | some sup =>
      { s with suppliers :=
                 setAssoc s.suppliers sid
                   { sup with posRefs := posRefsSet sup.posRefs key r } }
  | none => s

/-- `updateDoc` writing `posRefs.<key>` on a product document. -/
def updateProductPosRef (s : Store) (pid key : String) (r : PosRef) : Store :=
  match s.inventory.lookup pid with
  | some p =>
      { s with inventory :=
                 setAssoc s.inventory pid
                   { p with posRefs := posRefsSet p.posRefs key r } }
  | none => s

/-- `updateDoc` marking the document's sync as successful (`backend.ts` lines
555-577), optionally also writing the expense's `posRefs.<key>`. -/
def updateDocSyncSuccess (s : Store) (did nowIso : String)
    (ref : Option (String × PosRef)) : Store :=
  match s.documents.lookup did with
  | some d =>
      { s with documents :=
                 setAssoc s.documents did
                   { d with isSyncedToPos := some true,
                            syncStatus := { status := some "success",
                                            lastSync := some nowIso,
                                            error := none },
                            posRefs := match ref with
                                       | some (k, r) => posRefsSet d.posRefs k r
                                       | none => d.posRefs } }
  | none => s

/-- The `catch` handler's `updateDoc` (`backend.ts` lines 584-597): stamp the
document's `syncStatus` with the error; `lastSync` is left untouched. -/
def updateDocSyncError (s : Store) (did msg : String) : Store :=
  match s.documents.lookup did with
  | some d =>
      { s with documents :=
                 setAssoc s.documents did
                   { d with isSyncedToPos := some false,
                            syncStatus := { d.syncStatus with
                                            status := some "error",
                                            error := some msg } } }
  | none => s

/-- The product upsert loop of the relay (`backend.ts` lines 522-543): one
adapter call per snapshot product; a thrown call aborts the loop with the
error, a non-thrown unsuccessful result is silently skipped. -/
def posProductsLoop (env : PosEnv) (userId key : String) :
    List Product → Store → Store × Option String
  | [], s => (s, none)
  | p :: ps, s =>
      match env.productUpsert { p with userId := some userId } with
      | .error e => (s, some e)
      | .ok r =>
          let s1 :=
            if r.success && r.externalId.isSome && p.id.isSome then
              updateProductPosRef s (p.id.getD "") key
                ⟨key, r.externalId.getD "", some env.nowIso⟩
            else s
          posProductsLoop env userId key ps s1

/-- The tail of the relay once a POS supplier id is at hand: the product loop,
then the expense creation for payable document types (`invoice`,
`invoiceReceipt`, `receipt`) or a plain success stamp otherwise. -/
def posSyncAfterSupplier (data : FinalizeInvoiceData) (env : PosEnv)
    (key : String) (finalInvoiceRecord : Invoice)
    (savedOrUpdatedProducts : List Product) (s : Store) :
    Store × Option String :=
  match posProductsLoop env data.userId key savedOrUpdatedProducts s with
  | (s1, some e) => (s1, some e)
  | (s1, none) =>
      if data.docType = .invoice ∨ data.docType = .invoiceReceipt ∨
          data.docType = .receipt then
        match env.expenseCreate finalInvoiceRecord with
        | .error e => (s1, some e)
        | .ok expenseResult =>
            if expenseResult.success && expenseResult.externalId.isSome then
              (updateDocSyncSuccess s1 finalInvoiceRecord.id env.nowIso
                (some (key, ⟨key, expenseResult.externalId.getD "",
                             some env.nowIso⟩)), none)
            else
              (s1, some ("POS expense creation failed: " ++ expenseResult.message))
      else
        (updateDocSyncSuccess s1 finalInvoiceRecord.id env.nowIso none, none)

/-- The `try` block of the relay (`backend.ts` lines 474-581): read settings,
no-op without a configured POS; resolve the supplier's external reference,
upserting and persisting it if absent (a non-success upsert throws); then the
product loop and the document/expense step.  Returns the store as mutated so
far together with the caught error, if any. -/
def posSyncAttempt (data : FinalizeInvoiceData) (env : PosEnv)
    (finalInvoiceRecord : Invoice) (savedOrUpdatedProducts : List Product)
    (finalSupplierId : String) (s : Store) : Store × Option String :=
  match env.settings with
  | .error e => (s, some e)
  | .ok userSettings =>
      match userSettings.posConfig with
      | none => (s, none)
      | some config =>
          match s.suppliers.lookup finalSupplierId with
          | none => (s, none)
          | some supplierDoc =>
              let supplierData := { supplierDoc with osekMorshe := data.osekMorshe }
              let key := config.systemId.getD "undefined"
              let posSupplierId : Option String :=
                if strTruthy config.systemId then
                  (posRefsLookup supplierData.posRefs key).map (·.externalId)
                else none
              match posSupplierId with
              | some _ =>
                  posSyncAfterSupplier data env key finalInvoiceRecord
                    savedOrUpdatedProducts s
              | none =>
                  match env.supplierUpsert supplierData with
                  | .error e => (s, some e)
                  | .ok contactResult =>
                      if contactResult.success && contactResult.externalId.isSome then
                        posSyncAfterSupplier data env key finalInvoiceRecord
                          savedOrUpdatedProducts
                          (updateSupplierPosRef s finalSupplierId key
                            ⟨key, contactResult.externalId.getD "",
                             some env.nowIso⟩)
                      else
                        (s, some ("POS supplier sync failed: " ++ contactResult.message))

/-- The non-critical POS sync of `finalizeSaveProductsService` with its
top-level `catch` (`backend.ts` lines 473-598): any caught error is recorded
on the document's `syncStatus` and swallowed. -/
def posSyncPhase (data : FinalizeInvoiceData) (env : PosEnv)
    (finalInvoiceRecord : Invoice) (savedOrUpdatedProducts : List Product)
    (finalSupplierId : String) (s : Store) : Store :=
  match posSyncAttempt data env finalInvoiceRecord savedOrUpdatedProducts
      finalSupplierId s with
  | (s1, none) => s1
  | (s1, some msg) =>
      if finalInvoiceRecord.id ≠ "" then
        updateDocSyncError s1 finalInvoiceRecord.id ("POS Sync Failed: " ++ msg)
      else s1

/-- Result of a full `finalizeSaveProductsService` call: the store afterwards
and either the returned `{finalInvoiceRecord, savedOrUpdatedProducts}` or the
propagated error. -/
structure FinalizeResult where
  store : Store
  result : Except String (Invoice × List Product)
deriving Repr

/-- `finalizeSaveProductsService` (`backend.ts` lines 252-609): the atomic
local commit followed by the best-effort POS relay.  `s0` is the snapshot the
pre-transaction supplier-by-name query runs against; `s` is the store at
transaction time. -/
def finalizeSaveProductsService (data : FinalizeInvoiceData) (env : TxEnv)
    (posEnv : PosEnv) (s0 s : Store) : FinalizeResult :=
  match finalizeCommit data env s0 s with
  | .error e => { store := s, result := .error e }
  | .ok (s1, inv, saved, supId) =>
      { store := posSyncPhase data posEnv inv saved supId s1,
        result := .ok (inv, saved) }

/-! ### Supplier creation (`backend.ts` lines 1050-1185) -/

/-- `createSupplierService` (`backend.ts` lines 1142-1185): checks for an
existing supplier with the same name and returns it unchanged, otherwise
adds a new supplier document seeded with zero counters. -/
def createSupplierService (supplierData : Supplier) (userId : String)
    (env : TxEnv) (s : Store) : Except String (Store × Supplier) :=
  if strTruthy supplierData.name then
    match findSupplierByName s.suppliers (supplierData.name.getD "") with
    | some (sid, d) => .ok (s, { d with id := d.id <|> some sid })
    | none =>
        let newSupplierData : Supplier :=
          { supplierData with
            id := none, userId := some userId,
            createdAt := some env.now, lastActivityDate := some env.now,
            invoiceCount := some 0, totalSpent := some 0, posRefs := some [] }
        let newId := env.genId 0
        .ok ({ s with suppliers := setAssoc s.suppliers newId newSupplierData },
             { newSupplierData with id := some newId })
  else .error "Supplier name is required to create a new supplier."

/-- `createSupplierAndSyncWithPosService` (`backend.ts` lines 1050-1140):
generates a fresh document reference and builds the supplier object, with no
duplicate-name check — and never writes the supplier document itself; only
the POS-sync `updateDoc` calls touch the store, and they target the
never-created document, so in Firestore they reject (modelled by the
missing-id lookups below). -/
def createSupplierAndSyncWithPosService (supplierData : Supplier)
    (userId : String) (env : TxEnv) (posEnv : PosEnv) (s : Store) :
    Store × Except String Supplier :=
  let newId := env.genId 0
  if strTruthy supplierData.name then
    let newSupplierData : Supplier :=
      { supplierData with
        userId := some userId,
        createdAt := some env.now, lastActivityDate := some env.now,
        posRefs := some [] }
    let finalSupplierObject : Supplier :=
      { newSupplierData with id := some newId }
    let catchPos : Store → String → Store × Except String Supplier :=
      fun s' msg =>
        match s'.suppliers.lookup newId with
        | none =>
            (s', .error ("No document to update: suppliers/" ++ newId ++
              " (while recording: POS Sync Failed: " ++ msg ++ ")"))
        | some sup =>
            ({ s' with suppliers :=
                         setAssoc s'.suppliers newId
                           { sup with
                             isSyncedToPos := some false,
                             syncStatus := { sup.syncStatus with
                                             status := some "error",
                                             error := some ("POS Sync Failed: " ++ msg) } } },
             .ok finalSupplierObject)
    match posEnv.settings with
    | .error e => catchPos s e
    | .ok userSettings =>
        match userSettings.posConfig with
        | none => (s, .ok finalSupplierObject)
        | some config =>
            match posEnv.supplierUpsert finalSupplierObject with
            | .error e => catchPos s e
            | .ok result =>
                if result.success && result.externalId.isSome then
                  let key := config.systemId.getD "undefined"
                  let posRefData : PosRef :=
                    ⟨key, result.externalId.getD "", some posEnv.nowIso⟩
                  match s.suppliers.lookup newId with
                  | none =>
                      catchPos s ("No document to update: suppliers/" ++ newId)
                  | some sup =>
                      ({ s with suppliers :=
                                  setAssoc s.suppliers newId
                                    { sup with posRefs := posRefsSet sup.posRefs key posRefData } },
                       .ok (if strTruthy config.systemId then
                          { finalSupplierObject with
                            posRefs := posRefsSet finalSupplierObject.posRefs key posRefData }
                        else
                          { finalSupplierObject with
                            posRefs := some (finalSupplierObject.posRefs.getD []) }))
                else (s, .ok finalSupplierObject)
  else (s, .error "Supplier name is required to create a new supplier.")

deriving instance DecidableEq for Except

/-! ### Concrete stores and inputs used by witnesses and counterexamples -/

/-- A supplier `"Acme"` stored under document id `"sup-1"`. -/
def acmeSupplier : Supplier :=
  { id := some "sup-1", userId := some "u", name := some "Acme",
    totalSpent := some 5, invoiceCount := some 2 }

/-- An inventory product stored under document id `"prod-1"`. -/
def prodOne : Product :=
  { id := some "prod-1", userId := some "u", name := some "Widget",
    catalogNumber := some "W", unitPrice := some 3, isActive := some true }

/-- A store holding one supplier and one inventory product. -/
def baseStore : Store :=
  { suppliers := [("sup-1", acmeSupplier)],
    inventory := [("prod-1", prodOne)],
    documents := [] }

/-- A finalize call on an invoice updating the existing product `"prod-1"`. -/
def invoiceFinData : FinalizeInvoiceData :=
  { products := [{ name := some "Widget", unitPrice := some 4,
                   quantity := some 2, _originalId := some "prod-1" }],
    originalFileName := "doc.jpg", docType := .invoice, userId := "u",
    supplierName := some "Acme", totalAmount := some 50 }

/-- A transaction environment in which the store refuses the document write
at commit time (after the supplier and product writes were staged). -/
def failDocEnv : TxEnv := { failDocWrite := true }

/-- A finalize call on a receipt with no line items. -/
def receiptFinData : FinalizeInvoiceData :=
  { originalFileName := "r.jpg", docType := .receipt, userId := "u",
    supplierName := some "Acme", totalAmount := some 50 }

/-- A POS environment whose three adapter actions all throw. -/
def allThrowPosEnv : PosEnv :=
  { settings := .ok { posConfig := some { systemId := some "caspit" } },
    supplierUpsert := fun _ => .error "boom",
    productUpsert := fun _ => .error "boom",
    expenseCreate := fun _ => .error "boom" }

/-- The document record committed by `receiptFinData` against `baseStore`. -/
def committedReceiptInvoice : Invoice :=
  { uploadTime := some 0, id := "gen-0", userId := "u",
    originalFileName := "r.jpg", generatedFileName := "Acme_N_A",
    status := "completed", documentType := .receipt, supplierName := "Acme",
    supplierId := "sup-1", totalAmount := 50, paymentStatus := "paid" }

/-- The store committed by `receiptFinData` against `baseStore`. -/
def committedStore : Store :=
  { suppliers := [("sup-1", { acmeSupplier with
                              totalSpent := some 55, invoiceCount := some 3,
                              lastActivityDate := some 0 })],
    inventory := [("prod-1", prodOne)],
    documents := [("gen-0", { record := committedReceiptInvoice })] }

/-- `baseStore` after the supplier `"sup-1"` was deleted concurrently. -/
def goneStore : Store :=
  { suppliers := [], inventory := [("prod-1", prodOne)], documents := [] }

/-- A line item carrying a temporary `_originalId` (a `"prod-temp-"` one). -/
def tempProd : Product := { name := some "N", _originalId := some "prod-temp-7" }

/-- A line item carrying the `_originalId` of an existing inventory record. -/
def linkedProd : Product := { name := some "M", _originalId := some "prod-1" }

/-- The field-to-field fingerprint match of spec §4.1, stated from the spec's
words for comparison with the code's map-based lookup: an inventory item
matches a candidate when its catalog number equals the candidate's (truthy)
catalog number, or its barcode equals the candidate's (truthy) barcode. -/
def fingerprintFieldMatch (inv cand : Product) : Bool :=
  (strTruthy cand.catalogNumber && (inv.catalogNumber == cand.catalogNumber)) ||
  (strTruthy cand.barcode && (inv.barcode == cand.barcode))

/-! ### Lemmas about the chunking loop and the classification loop -/

theorem chunksOf10_flatten (values : List String) :
    (chunksOf10 values).flatten = values := by
  induction values using chunksOf10.induct with
  | case1 => simp [chunksOf10]
  | case2 v vs ih =>
      rw [chunksOf10, List.flatten_cons, ih]
      exact List.take_append_drop 10 (v :: vs)

theorem chunksOf10_length_le (values : List String) :
    ∀ c ∈ chunksOf10 values, 0 < c.length ∧ c.length ≤ 10 := by
  induction values using chunksOf10.induct with
  | case1 => simp [chunksOf10]
  | case2 v vs ih =>
      intro c hc
      rw [chunksOf10] at hc
      rcases List.mem_cons.mp hc with hc | hc
      · subst hc
        constructor
        · simp [List.length_take]
        · simpa using List.length_take_le 10 (v :: vs)
      · exact ih c hc

theorem partitionClassified_length (m : ProductMap) (l : List Product) :
    (partitionClassified m l).1.length + (partitionClassified m l).2.length
      = l.length := by
  induction l with
  | nil => simp [partitionClassified]
  | cons p ps ih =>
      rw [partitionClassified]
      rcases h : classifyProduct m p with q | d <;> simp [h] <;> omega

theorem partitionClassified_mem_inl (m : ProductMap) (l : List Product)
    (p q : Product) (hp : p ∈ l) (hc : classifyProduct m p = Sum.inl q) :
    q ∈ (partitionClassified m l).1 := by
  induction l with
  | nil => cases hp
  | cons x xs ih =>
      rw [partitionClassified]
      rcases List.mem_cons.mp hp with hp | hp
      · subst hp
        rw [hc]
        exact List.mem_cons_self _ _
      · rcases h : classifyProduct m x with r | d
        · exact List.mem_cons_of_mem _ (ih hp)
        · exact ih hp

theorem partitionClassified_mem_inr (m : ProductMap) (l : List Product)
    (p : Product) (d : ProductPriceDiscrepancy) (hp : p ∈ l)
    (hc : classifyProduct m p = Sum.inr d) :
    d ∈ (partitionClassified m l).2 := by
  induction l with
  | nil => cases hp
  | cons x xs ih =>
      rw [partitionClassified]
      rcases List.mem_cons.mp hp with hp | hp
      · subst hp
        rw [hc]
        exact List.mem_cons_self _ _
      · rcases h : classifyProduct m x with r | e
        · exact ih hp
        · exact List.mem_cons_of_mem _ (ih hp)

theorem lookupExisting_nil (p : Product) : lookupExisting [] p = none := by
  simp [lookupExisting]

theorem lookupExisting_keyless (m : ProductMap) (p : Product)
    (h1 : strTruthy p.catalogNumber = false)
    (h2 : strTruthy p.barcode = false) :
    lookupExisting m p = none := by
  simp [lookupExisting, h1, h2]

theorem classifyProduct_keyless (m : ProductMap) (p : Product)
    (h1 : strTruthy p.catalogNumber = false)
    (h2 : strTruthy p.barcode = false) :
    classifyProduct m p = Sum.inl p := by
  simp [classifyProduct, lookupExisting_keyless m p h1 h2]

theorem builtMap_of_empty (productsToCheck inventory : List Product)
    (h1 : collectCatalogNumbers productsToCheck = [])
    (h2 : collectBarcodes productsToCheck = []) :
    builtMap productsToCheck inventory = [] := by
  simp [builtMap, h1, h2]

theorem checkProductPrices_eq_partition (productsToCheck inventory : List Product)
    (h : ¬(collectCatalogNumbers productsToCheck = [] ∧
           collectBarcodes productsToCheck = [])) :
    checkProductPricesBeforeSaveService productsToCheck inventory =
      { productsToSaveDirectly :=
          (partitionClassified (builtMap productsToCheck inventory) productsToCheck).1,
        priceDiscrepancies :=
          (partitionClassified (builtMap productsToCheck inventory) productsToCheck).2 } := by
  rw [checkProductPricesBeforeSaveService]
  have : ¬(List.length (collectCatalogNumbers productsToCheck) = 0 ∧
           List.length (collectBarcodes productsToCheck) = 0) := by
    simpa [List.length_eq_zero] using h
  simp only [this, if_false]

theorem checkProductPrices_early (productsToCheck inventory : List Product)
    (h1 : collectCatalogNumbers productsToCheck = [])
    (h2 : collectBarcodes productsToCheck = []) :
    checkProductPricesBeforeSaveService productsToCheck inventory =
      { productsToSaveDirectly := productsToCheck, priceDiscrepancies := [] } := by
  rw [checkProductPricesBeforeSaveService]
  simp [h1, h2]

theorem checkProductPrices_classified (productsToCheck inventory : List Product)
    (p : Product) (hp : p ∈ productsToCheck) :
    ((classifyProduct (builtMap productsToCheck inventory) p =
        Sum.inl p →
        p ∈ (checkProductPricesBeforeSaveService productsToCheck inventory).productsToSaveDirectly)) ∧
    (∀ q, classifyProduct (builtMap productsToCheck inventory) p = Sum.inl q →
        q ∈ (checkProductPricesBeforeSaveService productsToCheck inventory).productsToSaveDirectly) ∧
    (∀ d, classifyProduct (builtMap productsToCheck inventory) p = Sum.inr d →
        d ∈ (checkProductPricesBeforeSaveService productsToCheck inventory).priceDiscrepancies) := by
  by_cases h : collectCatalogNumbers productsToCheck = [] ∧
      collectBarcodes productsToCheck = []
  · have hm := builtMap_of_empty productsToCheck inventory h.1 h.2
    rw [checkProductPrices_early productsToCheck inventory h.1 h.2]
    refine ⟨fun _ => hp, fun q hq => ?_, fun d hd => ?_⟩
    · rw [hm] at hq
      simp only [classifyProduct, lookupExisting_nil] at hq
      cases hq
      exact hp
    · rw [hm] at hd
      simp [classifyProduct, lookupExisting_nil] at hd
  · rw [checkProductPrices_eq_partition productsToCheck inventory h]
    exact ⟨fun hc => partitionClassified_mem_inl _ _ p p hp hc,
           fun q hq => partitionClassified_mem_inl _ _ p q hp hq,
           fun d hd => partitionClassified_mem_inr _ _ p d hp hd⟩

/-! ### Claim C3: price reconciliation classification -/

/-- Candidate of the C3 counterexample: catalog number `"A"`, barcode `"B"`,
unit price 10. -/
def C3exP : Product :=
  { id := some "p1", name := some "p", catalogNumber := some "A",
    barcode := some "B", unitPrice := some 10 }

/-- Second candidate of the C3 counterexample: barcode `"A"`. -/
def C3exQ : Product :=
  { id := some "q1", name := some "q", barcode := some "A",
    unitPrice := some 20 }

/-- Inventory record of the C3 counterexample: catalog number `"C"`, barcode
`"A"`, unit price 20.  Field-to-field it matches neither the catalog number
nor the barcode of `C3exP`, but its barcode collides with `C3exP`'s catalog
number inside the shared key map. -/
def C3exE : Product :=
  { id := some "e1", name := some "e", catalogNumber := some "C",
    barcode := some "A", unitPrice := some 20 }

/-- C3 counterexample: no inventory item matches `C3exP`'s catalog number or
barcode field-to-field, yet `checkProductPricesBeforeSaveService` reports
`C3exP` as a price discrepancy (the key map registers `C3exE` under its
barcode `"A"`, which collides with `C3exP`'s catalog number), so `C3exP` does
not go to `productsToSaveDirectly` unchanged. -/
theorem C3_counterexample :
    fingerprintFieldMatch C3exE C3exP = false ∧
    C3exP ∉
      (checkProductPricesBeforeSaveService [C3exP, C3exQ] [C3exE]).productsToSaveDirectly ∧
    (checkProductPricesBeforeSaveService [C3exP, C3exQ] [C3exE]).priceDiscrepancies =
      [⟨{ C3exP with id := some "e1" }, 20, 10⟩] := by
  refine ⟨by with_unfolding_all decide, ?_, by with_unfolding_all decide⟩
  with_unfolding_all decide

/-- C3 (amended): classification is driven by the fetched-products key map
(`builtMap`), in which every fetched inventory record is registered under both
its catalog number and its barcode.  A candidate whose map lookup (catalog
number first, then barcode) misses goes to `productsToSaveDirectly`
unchanged; a hit within 0.001 of the candidate's unit price goes to
`productsToSaveDirectly` carrying the matched internal id; a hit differing by
more than 0.001 becomes a price discrepancy carrying both unit prices; and
the two output lists together contain exactly one entry per input item. -/
theorem C3_price_classification (productsToCheck inventory : List Product)
    (p : Product) (hp : p ∈ productsToCheck) :
    (lookupExisting (builtMap productsToCheck inventory) p = none →
      p ∈ (checkProductPricesBeforeSaveService productsToCheck inventory).productsToSaveDirectly) ∧
    (∀ e, lookupExisting (builtMap productsToCheck inventory) p = some e →
      (ratAbs (numOr0 e.unitPrice - numOr0 p.unitPrice) ≤ (1 / 1000 : Money) →
        { p with id := e.id } ∈
          (checkProductPricesBeforeSaveService productsToCheck inventory).productsToSaveDirectly) ∧
      (ratAbs (numOr0 e.unitPrice - numOr0 p.unitPrice) > (1 / 1000 : Money) →
        (⟨{ p with id := e.id }, numOr0 e.unitPrice, numOr0 p.unitPrice⟩ :
            ProductPriceDiscrepancy) ∈
          (checkProductPricesBeforeSaveService productsToCheck inventory).priceDiscrepancies)) ∧
    (checkProductPricesBeforeSaveService productsToCheck inventory).productsToSaveDirectly.length +
      (checkProductPricesBeforeSaveService productsToCheck inventory).priceDiscrepancies.length =
      productsToCheck.length := by
  have hcls := checkProductPrices_classified productsToCheck inventory p hp
  refine ⟨fun hnone => ?_, fun e he => ⟨fun hle => ?_, fun hgt => ?_⟩, ?_⟩
  · exact hcls.2.1 p (by simp [classifyProduct, hnone])
  · apply hcls.2.1
    simp only [classifyProduct, he]
    rw [if_neg (not_lt.mpr hle)]
  · apply hcls.2.2
    simp only [classifyProduct, he]
    rw [if_pos hgt]
  · by_cases h : collectCatalogNumbers productsToCheck = [] ∧
        collectBarcodes productsToCheck = []
    · rw [checkProductPrices_early productsToCheck inventory h.1 h.2]
      simp
    · rw [checkProductPrices_eq_partition productsToCheck inventory h]
      exact partitionClassified_length _ _

/-- Witness candidate for `C3_price_classification`: catalog number `"W"`,
unit price 8. -/
def C3wCand : Product :=
  { id := some "w1", name := some "w", catalogNumber := some "W",
    unitPrice := some 8 }

/-- Witness inventory record for `C3_price_classification`: same catalog
number `"W"`, unit price 5. -/
def C3wInv : Product :=
  { id := some "w-e", name := some "we", catalogNumber := some "W",
    unitPrice := some 5 }

/-- Witness for `C3_price_classification` at a concrete input: the candidate
matches the inventory record by catalog number, the prices differ by 3, and
the discrepancy carrying both prices is produced. -/
theorem C3_price_classification_witness :
    (⟨{ C3wCand with id := some "w-e" }, 5, 8⟩ : ProductPriceDiscrepancy) ∈
      (checkProductPricesBeforeSaveService [C3wCand] [C3wInv]).priceDiscrepancies :=
  ((C3_price_classification [C3wCand] [C3wInv] C3wCand (by simp)).2.1 C3wInv
    (by with_unfolding_all decide)).2 (by with_unfolding_all decide)

/-! ### Claim C8: chunked identity-key queries -/

theorem issuedQueries_mem (cats bars : List String)
    (q : IdentField × List String) (hq : q ∈ issuedQueries cats bars) :
    q.2 ∈ chunksOf10 cats ∨ q.2 ∈ chunksOf10 bars := by
  rcases List.mem_append.mp hq with h | h
  · left
    by_cases hc : cats.length > 0
    · rw [if_pos hc] at h
      rcases List.mem_map.mp h with ⟨c, hc1, hc2⟩
      rw [← hc2]
      exact hc1
    · rw [if_neg hc] at h
      cases h
  · right
    by_cases hb : bars.length > 0
    · rw [if_pos hb] at h
      rcases List.mem_map.mp h with ⟨c, hc1, hc2⟩
      rw [← hc2]
      exact hc1
    · rw [if_neg hb] at h
      cases h

/-- Selector isolating the value lists of the catalog-number queries. -/
def catSel (q : IdentField × List String) : Option (List String) :=
  match q.1 with
  | .catalogNumber => some q.2
  | .barcode => none

/-- Selector isolating the value lists of the barcode queries. -/
def barSel (q : IdentField × List String) : Option (List String) :=
  match q.1 with
  | .barcode => some q.2
  | .catalogNumber => none

theorem catSel_on_cat (L : List (List String)) :
    List.filterMap catSel (L.map fun c => (IdentField.catalogNumber, c)) = L := by
  induction L with
  | nil => rfl
  | cons a as ih => simp only [List.map_cons, List.filterMap_cons, catSel, ih]

theorem catSel_on_bar (L : List (List String)) :
    List.filterMap catSel (L.map fun c => (IdentField.barcode, c)) = [] := by
  induction L with
  | nil => rfl
  | cons a as ih => simp only [List.map_cons, List.filterMap_cons, catSel, ih]

theorem barSel_on_cat (L : List (List String)) :
    List.filterMap barSel (L.map fun c => (IdentField.catalogNumber, c)) = [] := by
  induction L with
  | nil => rfl
  | cons a as ih => simp only [List.map_cons, List.filterMap_cons, barSel, ih]

theorem barSel_on_bar (L : List (List String)) :
    List.filterMap barSel (L.map fun c => (IdentField.barcode, c)) = L := by
  induction L with
  | nil => rfl
  | cons a as ih => simp only [List.map_cons, List.filterMap_cons, barSel, ih]

theorem issuedQueries_catSel (cats bars : List String) :
    ((issuedQueries cats bars).filterMap catSel).flatten = cats := by
  rw [issuedQueries, List.filterMap_append]
  by_cases hc : cats.length > 0 <;> by_cases hb : bars.length > 0
  · rw [if_pos hc, if_pos hb, catSel_on_cat, catSel_on_bar]
    simp [chunksOf10_flatten]
  · rw [if_pos hc, if_neg hb, catSel_on_cat]
    simp [chunksOf10_flatten]
  · have : cats = [] := by simpa using hc
    subst this
    rw [if_pos hb, catSel_on_bar]
    simp [chunksOf10]
  · have : cats = [] := by simpa using hc
    subst this
    rw [if_neg hc, if_neg hb]
    rfl

theorem issuedQueries_barSel (cats bars : List String) :
    ((issuedQueries cats bars).filterMap barSel).flatten = bars := by
  rw [issuedQueries, List.filterMap_append]
  by_cases hc : cats.length > 0 <;> by_cases hb : bars.length > 0
  · rw [if_pos hc, if_pos hb, barSel_on_cat, barSel_on_bar]
    simp [chunksOf10_flatten]
  · have : bars = [] := by simpa using hb
    subst this
    rw [if_pos hc, barSel_on_cat]
    simp [chunksOf10]
  · rw [if_neg hc, if_pos hb, barSel_on_bar]
    simp [chunksOf10_flatten]
  · have : bars = [] := by simpa using hb
    subst this
    rw [if_neg hc, if_neg hb]
    rfl

/-- C8: the chunked inventory fetch partitions the candidates' identity-key
values into consecutive chunks of at most 10 values, one `in`-query per
chunk (catalog numbers first, then barcodes), and concatenating the chunks of
each field's queries gives back exactly the collected value list — every
value ends up in exactly one chunk, for every input list. -/
theorem C8_query_chunking (productsToCheck : List Product) :
    (chunksOf10 (collectCatalogNumbers productsToCheck)).flatten =
      collectCatalogNumbers productsToCheck ∧
    (chunksOf10 (collectBarcodes productsToCheck)).flatten =
      collectBarcodes productsToCheck ∧
    (∀ q ∈ issuedQueries (collectCatalogNumbers productsToCheck)
        (collectBarcodes productsToCheck), 0 < q.2.length ∧ q.2.length ≤ 10) ∧
    ((issuedQueries (collectCatalogNumbers productsToCheck)
        (collectBarcodes productsToCheck)).filterMap catSel).flatten =
      collectCatalogNumbers productsToCheck ∧
    ((issuedQueries (collectCatalogNumbers productsToCheck)
        (collectBarcodes productsToCheck)).filterMap barSel).flatten =
      collectBarcodes productsToCheck := by
  refine ⟨chunksOf10_flatten _, chunksOf10_flatten _, fun q hq => ?_,
    issuedQueries_catSel _ _, issuedQueries_barSel _ _⟩
  rcases issuedQueries_mem _ _ q hq with h | h
  · exact chunksOf10_length_le _ q.2 h
  · exact chunksOf10_length_le _ q.2 h

/-- Witness for `C8_query_chunking` at a concrete input: twelve candidates
with distinct catalog numbers produce two catalog-number chunks (10 + 2) and
no barcode query. -/
theorem C8_query_chunking_witness :
    (∀ q ∈ issuedQueries
        (collectCatalogNumbers (List.range 12 |>.map
          (fun i => ({ catalogNumber := some (toString i) } : Product))))
        (collectBarcodes (List.range 12 |>.map
          (fun i => ({ catalogNumber := some (toString i) } : Product)))),
      0 < q.2.length ∧ q.2.length ≤ 10) ∧
    ((issuedQueries
        (collectCatalogNumbers (List.range 12 |>.map
          (fun i => ({ catalogNumber := some (toString i) } : Product))))
        (collectBarcodes (List.range 12 |>.map
          (fun i => ({ catalogNumber := some (toString i) } : Product))))).filterMap
        catSel).flatten =
      collectCatalogNumbers (List.range 12 |>.map
        (fun i => ({ catalogNumber := some (toString i) } : Product))) :=
  ⟨(C8_query_chunking _).2.2.1, (C8_query_chunking _).2.2.2.1⟩

/-! ### Claim C9: candidates without identity keys -/

/-- C9: a candidate with no truthy catalog number and no truthy barcode is
classified safe-to-save unchanged by the loop whatever the key map contains,
hence lands in `productsToSaveDirectly` and never in `priceDiscrepancies`;
and when no candidate carries either key, the whole input is returned as
`productsToSaveDirectly` untouched and no inventory query is issued at all. -/
theorem C9_keyless_items (productsToCheck inventory : List Product)
    (p : Product) (hp : p ∈ productsToCheck)
    (h1 : strTruthy p.catalogNumber = false)
    (h2 : strTruthy p.barcode = false) :
    (∀ m : ProductMap, classifyProduct m p = Sum.inl p) ∧
    p ∈ (checkProductPricesBeforeSaveService productsToCheck inventory).productsToSaveDirectly ∧
    ((∀ q ∈ productsToCheck,
        strTruthy q.catalogNumber = false ∧ strTruthy q.barcode = false) →
      checkProductPricesBeforeSaveService productsToCheck inventory =
        { productsToSaveDirectly := productsToCheck, priceDiscrepancies := [] } ∧
      issuedQueries (collectCatalogNumbers productsToCheck)
        (collectBarcodes productsToCheck) = []) := by
  have hall : ∀ m : ProductMap, classifyProduct m p = Sum.inl p :=
    fun m => classifyProduct_keyless m p h1 h2
  refine ⟨hall, ?_, fun hnone => ?_⟩
  · exact (checkProductPrices_classified productsToCheck inventory p hp).1
      (hall _)
  · have hc : collectCatalogNumbers productsToCheck = [] :=
      List.filterMap_eq_nil.mpr (fun q hq => by simp [(hnone q hq).1])
    have hb : collectBarcodes productsToCheck = [] :=
      List.filterMap_eq_nil.mpr (fun q hq => by simp [(hnone q hq).2])
    exact ⟨checkProductPrices_early productsToCheck inventory hc hb,
      by simp [issuedQueries, hc, hb]⟩

/-- Keyless candidate for the `C9_keyless_items` witness. -/
def C9wCand : Product := { id := some "k1", name := some "k", unitPrice := some 4 }

/-- Inventory record for the `C9_keyless_items` witness, with a price far from
the candidate's. -/
def C9wInv : Product :=
  { id := some "k-e", name := some "ke", catalogNumber := some "Z",
    barcode := some "Y", unitPrice := some 400 }

/-- Witness for `C9_keyless_items` at a concrete input: the keyless candidate
is returned unchanged and no query is issued, even though the inventory holds
a record with a very different price. -/
theorem C9_keyless_items_witness :
    checkProductPricesBeforeSaveService [C9wCand] [C9wInv] =
      { productsToSaveDirectly := [C9wCand], priceDiscrepancies := [] } ∧
    issuedQueries (collectCatalogNumbers [C9wCand]) (collectBarcodes [C9wCand]) = [] :=
  (C9_keyless_items [C9wCand] [C9wInv] C9wCand (by simp) (by rfl) (by rfl)).2.2
    (by intro q hq; rcases List.mem_cons.mp hq with h | h
        · subst h
          exact ⟨rfl, rfl⟩
        · cases h)

/-- C4: from `new_product_details` the flow advances to
`prompt_link_delivery_notes` for invoices and invoice-receipts, to
`prompt_link_invoice` for receipts, and to `ready_to_save` for every other
document type (delivery note or null); in particular the complete enumeration
shows it never returns to `supplier_payment_details` or `processing`. -/
theorem C4_forward_only :
    advanceToNextStep (some .invoice) .new_product_details =
      .prompt_link_delivery_notes ∧
    advanceToNextStep (some .invoiceReceipt) .new_product_details =
      .prompt_link_delivery_notes ∧
    advanceToNextStep (some .receipt) .new_product_details =
      .prompt_link_invoice ∧
    advanceToNextStep (some .deliveryNote) .new_product_details =
      .ready_to_save ∧
    advanceToNextStep none .new_product_details = .ready_to_save := by
  decide

/-! ### Lemmas about the store and the finalize transaction -/

theorem lookup_setAssoc {α : Type} (l : List (String × α)) (k : String) (v : α) :
    (setAssoc l k v).lookup k = some v := by
  induction l with
  | nil => simp [setAssoc]
  | cons kv rest ih =>
      rw [setAssoc]
      by_cases h : kv.1 = k
      · simp [h]
      · simp only [if_neg h, List.lookup]
        have : (k == kv.1) = false := by
          simp [BEq.beq]
          exact fun hk => h hk.symm
        simp [this, ih]

theorem applyWrites_append (env : TxEnv) (s : Store) (ws1 ws2 : List TxWrite) :
    applyWrites env s (ws1 ++ ws2) =
      match applyWrites env s ws1 with
      | none => none
      | some s1 => applyWrites env s1 ws2 := by
  induction ws1 generalizing s with
  | nil => simp [applyWrites]
  | cons w ws ih =>
      rw [List.cons_append, applyWrites, applyWrites]
      cases applyWrite env s w with
      | none => rfl
      | some s1 => exact ih s1

theorem buildInvoiceData_fields (data : FinalizeInvoiceData) (env : TxEnv)
    (pendingDocData : Option Invoice) (finalInvoiceId finalSupplierId : String)
    (savedOrUpdatedProducts : List Product) :
    (buildInvoiceData data env pendingDocData finalInvoiceId finalSupplierId
        savedOrUpdatedProducts).status = "completed" ∧
    (buildInvoiceData data env pendingDocData finalInvoiceId finalSupplierId
        savedOrUpdatedProducts).paymentStatus =
      (if data.docType = .receipt ∨ data.docType = .invoiceReceipt then "paid"
       else "unpaid") ∧
    (buildInvoiceData data env pendingDocData finalInvoiceId finalSupplierId
        savedOrUpdatedProducts).linkedInvoiceId = none ∧
    (buildInvoiceData data env pendingDocData finalInvoiceId finalSupplierId
        savedOrUpdatedProducts).id = finalInvoiceId := by
  refine ⟨rfl, rfl, rfl, rfl⟩

theorem buildInvoiceData_id (data : FinalizeInvoiceData) (env : TxEnv)
    (p : Option Invoice) (fid sid : String) (prods : List Product) :
    (buildInvoiceData data env p fid sid prods).id = fid := rfl

theorem finalizeRest_shape (data : FinalizeInvoiceData) (env : TxEnv)
    (p : Option Invoice) (sid : String) (ws0 : List TxWrite) (n : Nat)
    (ws : List TxWrite) (inv : Invoice) (saved : List Product) (supId : String)
    (h : finalizeRest data env p sid ws0 n = .ok (ws, inv, saved, supId)) :
    inv.status = "completed" ∧
    inv.paymentStatus =
      (if data.docType = .receipt ∨ data.docType = .invoiceReceipt then "paid"
       else "unpaid") ∧
    inv.linkedInvoiceId = none ∧
    ∃ ws1, ws = ws1 ++ [TxWrite.documentSetMerge inv.id inv] := by
  rw [finalizeRest] at h
  injection h with h
  simp only [Prod.mk.injEq] at h
  obtain ⟨h1, h2, h3, h4⟩ := h
  subst h2
  refine ⟨rfl, rfl, rfl, ?_⟩
  refine ⟨ws0 ++ (processProducts env data.userId data.products n).1, ?_⟩
  rw [← h1, buildInvoiceData_id]

theorem finalizeTxBody_shape (data : FinalizeInvoiceData) (env : TxEnv)
    (s0 s : Store) (ws : List TxWrite) (inv : Invoice) (saved : List Product)
    (supId : String)
    (h : finalizeTxBody data env s0 s = .ok (ws, inv, saved, supId)) :
    inv.status = "completed" ∧
    inv.paymentStatus =
      (if data.docType = .receipt ∨ data.docType = .invoiceReceipt then "paid"
       else "unpaid") ∧
    inv.linkedInvoiceId = none ∧
    ∃ ws0, ws = ws0 ++ [TxWrite.documentSetMerge inv.id inv] := by
  rw [finalizeTxBody] at h
  rcases hf : findSupplierByName s0.suppliers (data.supplierName.getD "") with
    _ | ⟨sid, x⟩
  · simp only [hf] at h
    exact finalizeRest_shape _ _ _ _ _ _ _ _ _ _ h
  · simp only [hf] at h
    rcases hl : s.suppliers.lookup sid with _ | supplierData
    · simp only [hl] at h
      cases h
    · simp only [hl] at h
      exact finalizeRest_shape _ _ _ _ _ _ _ _ _ _ h

theorem finalizeCommit_doc (data : FinalizeInvoiceData) (env : TxEnv)
    (s0 s s1 : Store) (inv : Invoice) (saved : List Product) (supId : String)
    (h : finalizeCommit data env s0 s = .ok (s1, inv, saved, supId)) :
    inv.status = "completed" ∧
    inv.paymentStatus =
      (if data.docType = .receipt ∨ data.docType = .invoiceReceipt then "paid"
       else "unpaid") ∧
    inv.linkedInvoiceId = none ∧
    ∃ d, s1.documents.lookup inv.id = some d ∧ d.record = inv := by
  rw [finalizeCommit] at h
  by_cases hu : data.userId = ""
  · rw [if_pos hu] at h
    cases h
  rw [if_neg hu] at h
  by_cases hn : strTruthy data.supplierName
  case neg => rw [if_neg hn] at h; cases h
  rw [if_pos hn] at h
  rcases hb : finalizeTxBody data env s0 s with e | ⟨ws, inv2, saved2, supId2⟩
  · simp only [hb] at h
    cases h
  simp only [hb] at h
  rcases ha : applyWrites env s ws with _ | s2
  · simp only [ha] at h
    cases h
  simp only [ha] at h
  injection h with h
  simp only [Prod.mk.injEq] at h
  obtain ⟨hs1, hinv, hsaved, hsup⟩ := h
  subst hs1
  subst hinv
  obtain ⟨hst, hpay, hlink, ws0, hws⟩ := finalizeTxBody_shape _ _ _ _ _ _ _ _ hb
  refine ⟨hst, hpay, hlink, ?_⟩
  subst hws
  rw [applyWrites_append] at ha
  rcases h0 : applyWrites env s ws0 with _ | s3
  · rw [h0] at ha
    cases ha
  rw [h0] at ha
  simp only [applyWrites] at ha
  rcases hw : applyWrite env s3 (TxWrite.documentSetMerge inv2.id inv2) with _ | s4
  · rw [hw] at ha
    cases ha
  rw [hw] at ha
  injection ha with ha
  subst ha
  rw [applyWrite] at hw
  by_cases hfail : env.failDocWrite
  · rw [if_pos hfail] at hw
    cases hw
  rw [if_neg hfail] at hw
  rcases hd : s3.documents.lookup inv2.id with _ | d0
  · rw [hd] at hw
    injection hw with hw
    subst hw
    exact ⟨{ record := inv2 }, by simp [lookup_setAssoc], rfl⟩
  · rw [hd] at hw
    injection hw with hw
    subst hw
    exact ⟨{ d0 with record := inv2 }, by simp [lookup_setAssoc], rfl⟩

/-! ### Claim C1: the finalize commit is all-or-nothing -/

/-- C1: every staged write of a finalize call is applied atomically — if any
step inside the commit fails (supplier counter update or creation, inventory
upsert, or the document write, each of which the store may refuse at commit
time), the call returns the error and the store is exactly as before the
call: no supplier counter change, no inventory record change and no document
change is observable. -/
theorem C1_atomicity (data : FinalizeInvoiceData) (env : TxEnv)
    (posEnv : PosEnv) (s0 s : Store) (e : String)
    (h : (finalizeSaveProductsService data env posEnv s0 s).result =
      Except.error e) :
    (finalizeSaveProductsService data env posEnv s0 s).store = s := by
  unfold finalizeSaveProductsService at h ⊢
  rcases hc : finalizeCommit data env s0 s with e2 | ⟨s1, inv, saved, supId⟩
  · simp only [hc]
  · simp only [hc] at h
    cases h

/-- Witness for `C1_atomicity`: a finalize call against `baseStore` that
stages a supplier counter update and a product update and then has the
document write refused; the call errors and the store is unchanged. -/
theorem C1_atomicity_witness :
    (finalizeSaveProductsService invoiceFinData failDocEnv {} baseStore
        baseStore).result = Except.error "transaction commit failed" ∧
    (finalizeSaveProductsService invoiceFinData failDocEnv {} baseStore
        baseStore).store = baseStore :=
  ⟨by with_unfolding_all decide,
   C1_atomicity invoiceFinData failDocEnv {} baseStore baseStore
     "transaction commit failed" (by with_unfolding_all decide)⟩

/-! ### Claim C5: in-transaction supplier re-validation -/

/-- C5: when the pre-transaction supplier-by-name lookup found a supplier but
the in-transaction re-read finds it gone, the transaction fails with the
dedicated error and the store is untouched — finalize never falls back to
creating a new supplier in that situation. -/
theorem C5_supplier_revalidation (data : FinalizeInvoiceData) (env : TxEnv)
    (posEnv : PosEnv) (s0 s : Store) (sid : String) (sup : Supplier)
    (huser : data.userId ≠ "")
    (hname : strTruthy data.supplierName = true)
    (hfound : findSupplierByName s0.suppliers (data.supplierName.getD "") =
      some (sid, sup))
    (hgone : s.suppliers.lookup sid = none) :
    (finalizeSaveProductsService data env posEnv s0 s).result =
      Except.error
        "Supplier was deleted between the initial query and the transaction start." ∧
    (finalizeSaveProductsService data env posEnv s0 s).store = s := by
  have hbody : finalizeTxBody data env s0 s =
      Except.error
        "Supplier was deleted between the initial query and the transaction start." := by
    rw [finalizeTxBody]
    simp only [hfound, hgone]
  have hcommit : finalizeCommit data env s0 s =
      Except.error
        "Supplier was deleted between the initial query and the transaction start." := by
    rw [finalizeCommit, if_neg huser, if_pos hname, hbody]
  unfold finalizeSaveProductsService
  rw [hcommit]
  exact ⟨rfl, rfl⟩

/-- Witness for `C5_supplier_revalidation`: the pre-transaction query (run
against `baseStore`) finds `"sup-1"`, which no longer exists in `goneStore`
at transaction time. -/
theorem C5_supplier_revalidation_witness :
    (finalizeSaveProductsService receiptFinData {} {} baseStore
        goneStore).result =
      Except.error
        "Supplier was deleted between the initial query and the transaction start." ∧
    (finalizeSaveProductsService receiptFinData {} {} baseStore
        goneStore).store = goneStore :=
  C5_supplier_revalidation receiptFinData {} {} baseStore goneStore
    "sup-1" acmeSupplier (by decide) (by decide)
    (by with_unfolding_all decide) (by with_unfolding_all decide)

/-! ### Claim C10: update-vs-create decision for line items -/

/-- C10: inside the finalize transaction, a line item stages an update of the
existing inventory record `_originalId` exactly when `_originalId` is truthy
and does not start with `"prod-temp-"` (and consumes no fresh id); any other
line item stages the creation of a new record under a freshly generated id;
in both cases the written record is stamped `isActive := true`. -/
theorem C10_inventory_upsert (env : TxEnv) (userId : String) (n : Nat)
    (product : Product) :
    ((strTruthy product._originalId &&
        !((product._originalId.getD "").startsWith "prod-temp-")) = true →
      processProduct env userId n product =
        (TxWrite.productUpdate (product._originalId.getD "")
            { product with _originalId := none, lastUpdated := some env.now,
                           isActive := some true },
         { product with _originalId := none,
                        id := some (product._originalId.getD ""),
                        userId := some userId },
         n)) ∧
    ((strTruthy product._originalId &&
        !((product._originalId.getD "").startsWith "prod-temp-")) = false →
      processProduct env userId n product =
        (TxWrite.productSet (env.genId n)
            { product with _originalId := none, id := some (env.genId n),
                           userId := some userId, lastUpdated := some env.now,
                           isActive := some true },
         { product with _originalId := none, id := some (env.genId n),
                        userId := some userId, lastUpdated := none,
                        isActive := some true },
         n + 1)) := by
  constructor <;> intro h <;> simp only [processProduct, h] <;> rfl

/-- Witness for `C10_inventory_upsert` at concrete inputs: a line item
referencing the existing record `"prod-1"` stages an `update` of that record,
while a `"prod-temp-"`-prefixed one stages a `set` under the generated id and
bumps the id counter. -/
theorem C10_inventory_upsert_witness :
    processProduct {} "u" 0 linkedProd =
      (TxWrite.productUpdate "prod-1"
          { linkedProd with _originalId := none, lastUpdated := some 0,
                            isActive := some true },
       { linkedProd with _originalId := none, id := some "prod-1",
                         userId := some "u" },
       0) ∧
    processProduct {} "u" 0 tempProd =
      (TxWrite.productSet (TxEnv.genId {} 0)
          { tempProd with _originalId := none, id := some (TxEnv.genId {} 0),
                          userId := some "u", lastUpdated := some 0,
                          isActive := some true },
       { tempProd with _originalId := none, id := some (TxEnv.genId {} 0),
                       userId := some "u", lastUpdated := none,
                       isActive := some true },
       1) :=
  ⟨(C10_inventory_upsert {} "u" 0 linkedProd).1 (by with_unfolding_all decide),
   (C10_inventory_upsert {} "u" 0 tempProd).2 (by with_unfolding_all decide)⟩

/-! ### Claim C2: POS relay failures are isolated from the local commit -/

theorem updateDocSyncError_suppliers (s : Store) (did msg : String) :
    (updateDocSyncError s did msg).suppliers = s.suppliers := by
  unfold updateDocSyncError
  cases s.documents.lookup did <;> rfl

theorem updateDocSyncError_inventory (s : Store) (did msg : String) :
    (updateDocSyncError s did msg).inventory = s.inventory := by
  unfold updateDocSyncError
  cases s.documents.lookup did <;> rfl

theorem updateDocSyncError_lookup (s : Store) (did msg : String)
    (d : StoredDoc) (h : s.documents.lookup did = some d) :
    (updateDocSyncError s did msg).documents.lookup did =
      some { d with
             isSyncedToPos := some false,
             syncStatus := { d.syncStatus with
                             status := some "error",
                             error := some msg } } := by
  unfold updateDocSyncError
  rw [h]
  exact lookup_setAssoc _ _ _

/-- C2: for a finalize call whose local transaction commits, if the POS
adapter's supplier upsert throws (in an environment where every adapter call
throws), the exception is caught: finalize still returns the committed
record, the committed document keeps `status = "completed"` while its
`syncStatus` is set to `error` with the thrown message, the suppliers and
inventory are exactly as the transaction left them (nothing is reverted), and
in particular no `posRefs` entry for the configured system is written on the
supplier (whose reference was absent) or on any product. -/
theorem C2_relay_isolation (data : FinalizeInvoiceData) (env : TxEnv)
    (posEnv : PosEnv) (s0 s s1 : Store) (inv : Invoice) (saved : List Product)
    (supId : String) (st : UserSettings) (config : PosConnectionConfig)
    (k : String) (supD : Supplier) (em : String)
    (hcommit : finalizeCommit data env s0 s = .ok (s1, inv, saved, supId))
    (hsettings : posEnv.settings = .ok st)
    (hconfig : st.posConfig = some config)
    (hkey : config.systemId = some k) (hk : k ≠ "")
    (hsup : s1.suppliers.lookup supId = some supD)
    (hnoref : posRefsLookup supD.posRefs k = none)
    (hsupErr : posEnv.supplierUpsert { supD with osekMorshe := data.osekMorshe } =
      .error em)
    (hprodErr : ∀ p, ∃ e, posEnv.productUpsert p = .error e)
    (hexpErr : ∀ i, ∃ e, posEnv.expenseCreate i = .error e)
    (hid : inv.id ≠ "") :
    (finalizeSaveProductsService data env posEnv s0 s).result =
      Except.ok (inv, saved) ∧
    (finalizeSaveProductsService data env posEnv s0 s).store =
      updateDocSyncError s1 inv.id ("POS Sync Failed: " ++ em) ∧
    (finalizeSaveProductsService data env posEnv s0 s).store.suppliers =
      s1.suppliers ∧
    (finalizeSaveProductsService data env posEnv s0 s).store.inventory =
      s1.inventory ∧
    (finalizeSaveProductsService data env posEnv s0 s).store.suppliers.lookup
      supId = some supD ∧
    (∃ d, (finalizeSaveProductsService data env posEnv s0 s).store.documents.lookup
        inv.id = some d ∧
      d.record = inv ∧ d.record.status = "completed" ∧
      d.syncStatus.status = some "error" ∧
      d.syncStatus.error = some ("POS Sync Failed: " ++ em)) := by
  obtain ⟨hst2, hpay, hlink, d0, hd0, hd0rec⟩ :=
    finalizeCommit_doc _ _ _ _ _ _ _ _ hcommit
  have hkt : strTruthy config.systemId = true := by
    rw [hkey]
    simp [strTruthy, hk]
  have hkt2 : strTruthy (some k) = true := by simp [strTruthy, hk]
  have hatt : posSyncAttempt data posEnv inv saved supId s1 = (s1, some em) := by
    rw [posSyncAttempt, hsettings]
    simp only [hconfig, hsup, hkt, hkey, Option.getD, if_true]
    simp only [hnoref, hsupErr]
    simp [hkt2]
  have hphase : posSyncPhase data posEnv inv saved supId s1 =
      updateDocSyncError s1 inv.id ("POS Sync Failed: " ++ em) := by
    simp only [posSyncPhase, hatt]
    rw [if_pos hid]
  unfold finalizeSaveProductsService
  simp only [hcommit]
  refine ⟨trivial, hphase, ?_, ?_, ?_, ?_⟩
  · rw [hphase, updateDocSyncError_suppliers]
  · rw [hphase, updateDocSyncError_inventory]
  · rw [hphase, updateDocSyncError_suppliers]
    exact hsup
  · refine ⟨{ d0 with
              isSyncedToPos := some false,
              syncStatus := { d0.syncStatus with
                              status := some "error",
                              error := some ("POS Sync Failed: " ++ em) } },
      ?_, hd0rec, by rw [hd0rec]; exact hst2, rfl, rfl⟩
    rw [hphase]
    exact updateDocSyncError_lookup _ _ _ _ hd0

/-- Witness for `C2_relay_isolation`: the receipt finalize against `baseStore`
commits `committedStore`, and with every POS adapter call throwing `"boom"`
the document keeps `status = "completed"`, `syncStatus` records the failure,
and neither supplier nor inventory changes. -/
theorem C2_relay_isolation_witness :
    (finalizeSaveProductsService receiptFinData {} allThrowPosEnv baseStore
        baseStore).result = Except.ok (committedReceiptInvoice, []) ∧
    (finalizeSaveProductsService receiptFinData {} allThrowPosEnv baseStore
        baseStore).store =
      updateDocSyncError committedStore committedReceiptInvoice.id
        ("POS Sync Failed: " ++ "boom") ∧
    (finalizeSaveProductsService receiptFinData {} allThrowPosEnv baseStore
        baseStore).store.suppliers = committedStore.suppliers ∧
    (finalizeSaveProductsService receiptFinData {} allThrowPosEnv baseStore
        baseStore).store.inventory = committedStore.inventory ∧
    (finalizeSaveProductsService receiptFinData {} allThrowPosEnv baseStore
        baseStore).store.suppliers.lookup "sup-1" =
      some { acmeSupplier with
             totalSpent := some 55, invoiceCount := some 3,
             lastActivityDate := some 0 } ∧
    (∃ d, (finalizeSaveProductsService receiptFinData {} allThrowPosEnv
        baseStore baseStore).store.documents.lookup
          committedReceiptInvoice.id = some d ∧
      d.record = committedReceiptInvoice ∧ d.record.status = "completed" ∧
      d.syncStatus.status = some "error" ∧
      d.syncStatus.error = some ("POS Sync Failed: " ++ "boom")) :=
  C2_relay_isolation receiptFinData {} allThrowPosEnv baseStore baseStore
    committedStore committedReceiptInvoice [] "sup-1"
    { posConfig := some { systemId := some "caspit" } }
    { systemId := some "caspit" } "caspit"
    { acmeSupplier with
      totalSpent := some 55, invoiceCount := some 3,
      lastActivityDate := some 0 } "boom"
    (by with_unfolding_all decide) (by with_unfolding_all decide)
    (by with_unfolding_all decide) (by with_unfolding_all decide)
    (by decide) (by with_unfolding_all decide) (by with_unfolding_all decide)
    (by with_unfolding_all decide) (fun p => ⟨"boom", rfl⟩)
    (fun i => ⟨"boom", rfl⟩) (by decide)

/-! ### Claim C6: linking a receipt to an invoice -/

/-- C6 evaluated at the failing input: the flow's `handleLinkInvoice` records
the selected id `"inv-7"` and moves to `ready_to_save`, and the receipt
finalize sets `paymentStatus = "paid"` — but `FinalizeInvoiceData` carries no
linked-invoice field and the `invoiceData` literal hardcodes
`linkedInvoiceId: null`, so the finalized Document record has
`linkedInvoiceId = none`, not the selected `"inv-7"`. -/
theorem C6_receipt_link_evaluation :
    (handleLinkInvoice {} "inv-7").finalizedLinkedInvoiceId = some "inv-7" ∧
    (handleLinkInvoice {} "inv-7").currentDialogStep =
      DialogFlowStep.ready_to_save ∧
    (finalizeSaveProductsService receiptFinData {} {} baseStore
        baseStore).result = Except.ok (committedReceiptInvoice, []) ∧
    committedReceiptInvoice.paymentStatus = "paid" ∧
    committedReceiptInvoice.linkedInvoiceId = none ∧
    committedReceiptInvoice.linkedInvoiceId ≠ some "inv-7" := by
  refine ⟨rfl, rfl, by with_unfolding_all decide, rfl, rfl, by decide⟩

/-! ### Claim C7: duplicate-name supplier creation -/

/-- C7 counterexample: with supplier `"Acme"` already stored under `"sup-1"`,
`createSupplierAndSyncWithPosService` (one of the two supplier-creation
paths) performs no duplicate-name check: it returns a fresh supplier object
with the newly generated id `"gen-0"` — not the existing record — so the
claim does not hold for every supplier-creation path. -/
theorem C7_counterexample :
    findSupplierByName baseStore.suppliers "Acme" =
      some ("sup-1", acmeSupplier) ∧
    (createSupplierAndSyncWithPosService { name := some "Acme" } "u" {} {}
        baseStore).1 = baseStore ∧
    (createSupplierAndSyncWithPosService { name := some "Acme" } "u" {} {}
        baseStore).2 =
      Except.ok { name := some "Acme", id := some "gen-0",
                  userId := some "u", createdAt := some 0,
                  lastActivityDate := some 0, posRefs := some [] } ∧
    acmeSupplier.id = some "sup-1" := by
  with_unfolding_all decide

/-- C7 (amended): duplicate-name handling differs between the two creation
paths.  `createSupplierService` returns the existing record unchanged (and
leaves the store untouched) when a supplier with the same name exists;
`createSupplierAndSyncWithPosService` performs no duplicate check — with no
POS system configured it leaves the store unchanged and returns a freshly
built supplier object under a newly generated id. -/
theorem C7_create_supplier_paths (supplierData : Supplier) (userId : String)
    (env : TxEnv) (posEnv : PosEnv) (s : Store) (sid : String) (d : Supplier)
    (st : UserSettings)
    (hname : strTruthy supplierData.name = true)
    (hfound : findSupplierByName s.suppliers (supplierData.name.getD "") =
      some (sid, d))
    (hsettings : posEnv.settings = .ok st) (hconfig : st.posConfig = none) :
    createSupplierService supplierData userId env s =
      .ok (s, { d with id := d.id <|> some sid }) ∧
    (createSupplierAndSyncWithPosService supplierData userId env posEnv s).1 =
      s ∧
    (createSupplierAndSyncWithPosService supplierData userId env posEnv s).2 =
      .ok { supplierData with
            userId := some userId, createdAt := some env.now,
            lastActivityDate := some env.now, posRefs := some [],
            id := some (env.genId 0) } := by
  refine ⟨?_, ?_, ?_⟩
  · rw [createSupplierService, if_pos hname]
    simp only [hfound]
  · rw [createSupplierAndSyncWithPosService, if_pos hname, hsettings]
    simp only [hconfig]
  · rw [createSupplierAndSyncWithPosService, if_pos hname, hsettings]
    simp only [hconfig]

/-- Witness for `C7_create_supplier_paths` at the concrete duplicate name
`"Acme"` against `baseStore`. -/
theorem C7_create_supplier_paths_witness :
    createSupplierService { name := some "Acme" } "u" {} baseStore =
      .ok (baseStore, { acmeSupplier with id := acmeSupplier.id <|> some "sup-1" }) ∧
    (createSupplierAndSyncWithPosService { name := some "Acme" } "u" {} {}
        baseStore).1 = baseStore ∧
    (createSupplierAndSyncWithPosService { name := some "Acme" } "u" {} {}
        baseStore).2 =
      .ok { ({ name := some "Acme" } : Supplier) with
            userId := some "u", createdAt := some (TxEnv.now {}),
            lastActivityDate := some (TxEnv.now {}), posRefs := some [],
            id := some (TxEnv.genId {} 0) } :=
  C7_create_supplier_paths { name := some "Acme" } "u" {} {} baseStore
    "sup-1" acmeSupplier {} (by decide) (by with_unfolding_all decide)
    (by decide) (by decide)

end InvoTrack
